import Mathlib

/-!
Shallow embedding of the VevKit/saga structured logging library
(`src/logger.ts`, `src/constants.ts`, `src/types.ts`, `src/transports`).

Modelling conventions:
* Severity levels and their numeric ranks follow `constants.ts` (`LOG_LEVELS`,
  `LOG_SYMBOLS`).
* Metadata objects (`Record<string, any>`) are association lists from string
  keys to string values; the merge logic never inspects values, so an opaque
  value type suffices.  `mergeMeta a b` embeds the JS spread `{...a, ...b}`:
  keys of `a` in order (overridden by `b` where both have the key), then the
  keys of `b` not in `a`.
* A `Transport` is identified by reference in JS; here each carries a numeric
  identity plus the shape facts (`isObject`, callable `log`, callable `close`)
  that `validateTransport` inspects, and an `isConsole` tag marking instances
  of `ConsoleTransport`.
* A transport's `log` may throw; a single dispatch consults an outcome oracle
  `Transport → Option Err` (`none` = the call returns, `some e` = it throws
  `e`).  The dispatch path is written in `Except Err` so that an uncaught
  throw would propagate to the caller of the logging method; `tryTransportLog`
  places its catch exactly where `logger.ts` does.
* `Array.prototype.forEach` semantics are embedded faithfully: the length is
  captured when iteration starts, each index is re-read from the live array,
  and an index that no longer exists is skipped (ECMA `HasProperty` check).
  This matters because `handleTransportError` splices `this.transports`
  mid-iteration.
* The timestamp is an abstract instant (`Nat`); concrete date rendering is an
  external collaborator, so the default `datetime` formatter is embedded as
  `Nat.repr` of the instant followed by symbol and message, matching the shape
  `${timestampStr}${entry.symbol} ${entry.message}` of `initializeFormatters`.
* `config.pattern`, `config.formatters` and `config.timestamp` overrides are
  presentation-only fields no claim touches; they are omitted from the
  configuration record.
-/

namespace Saga

/-- Severity levels, `types.ts` `LogLevel`. -/
inductive LogLevel where
  | debug
  | info
  | warning
  | success
  | error
  | critical
deriving DecidableEq, Repr

/-- Numeric rank of each level, `constants.ts` `LOG_LEVELS`. -/
def LOG_LEVELS : LogLevel → Nat
  | .debug => 0
  | .info => 1
  | .warning => 2
  | .success => 3
  | .error => 4
  | .critical => 5

/-- Display symbol of each level, `constants.ts` `LOG_SYMBOLS`. -/
def LOG_SYMBOLS : LogLevel → String
  | .critical => "⚡"
  | .error => "✕"
  | .success => "▲"
  | .warning => "▼"
  | .info => "◆"
  | .debug => "●"

/-- Opaque metadata values. -/
abbrev MVal := String

/-- A string-keyed record, as used for `config.metadata` and entry metadata. -/
abbrev Metadata := List (String × MVal)

/-- First-occurrence lookup in a record (JS property read). -/
def metaLookup : Metadata → String → Option MVal
  | [], _ => none
  | (k', v) :: rest, k => if k' = k then some v else metaLookup rest k

/-- Keys of `a`, each overridden by `b`'s value when `b` also has the key
(the first phase of the JS spread `{...a, ...b}`). -/
def overrideAll : Metadata → Metadata → Metadata
  | [], _ => []
  | (k, v) :: rest, b =>
    (k, (metaLookup b k).getD v) :: overrideAll rest b

/-- JS object spread `{...a, ...b}`: `a`'s keys in order with `b` winning on
collisions, then `b`'s novel keys in order. -/
def mergeMeta (a b : Metadata) : Metadata :=
  overrideAll a b ++ b.filter (fun kv => (metaLookup a kv.1).isNone)

/-- A transport reference together with the shape facts `validateTransport`
inspects.  `id` models JS object identity, `isConsole` marks
`ConsoleTransport` instances (`transports/base.ts`). -/
structure Transport where
  id : Nat
  isConsole : Bool := false
  isObject : Bool := true
  hasLog : Bool := true
  hasClose : Bool := false
deriving DecidableEq, Repr

/-- A fresh `new ConsoleTransport()`. -/
def mkConsole (n : Nat) : Transport :=
  { id := n, isConsole := true, isObject := true, hasLog := true, hasClose := false }

/-- `config.validation` object, `types.ts`. -/
structure VPolicy where
  throwOnInvalid : Bool := false
  requireClose : Bool := false
deriving DecidableEq, Repr

/-- `LoggerConfig` (`types.ts`), restricted to the fields the dispatch,
validation, failure and inheritance logic reads.  `hasOnTransportError`
records whether an `onTransportError` callback was supplied. -/
structure Config where
  level : Option LogLevel := none
  metadata : Metadata := []
  hasOnTransportError : Bool := false
  failureThreshold : Option Nat := none
  validation : Option VPolicy := none
  transports : Option (List Transport) := none
deriving DecidableEq, Repr

/-- `config.validation?.throwOnInvalid` (undefined is falsy). -/
def cfgThrowOnInvalid (cfg : Config) : Bool :=
  (cfg.validation.map VPolicy.throwOnInvalid).getD false

/-- `config.validation?.requireClose` (undefined is falsy). -/
def cfgRequireClose (cfg : Config) : Bool :=
  (cfg.validation.map VPolicy.requireClose).getD false

/-- `TransportValidationError` (`types.ts`). -/
structure TVError where
  message : String
deriving DecidableEq, Repr

/-- An error value thrown by a transport's `log`. -/
abbrev Err := String

/-- `LogEntry` (`types.ts`); the timestamp is an abstract instant. -/
structure LogEntry where
  level : LogLevel
  symbol : String
  message : String
  timestamp : Nat
  metadata : Metadata
  formattedMessage : Option String := none
deriving DecidableEq, Repr

/-- Observable side effects of logger operations: a transport `log`
invocation, an `onTransportError` callback invocation (with the transport
list as it stood at call time), an eviction, a fallback console attach, and
a `console.warn` diagnostic. -/
inductive Event where
  | attempt (t : Transport)
  | callback (t : Transport) (e : Err) (snapshot : List Transport) (entry : LogEntry)
  | evict (t : Transport)
  | fallback (t : Transport)
  | warn
deriving DecidableEq, Repr

/-- The mutable per-instance state of a `Logger`: its construction-time
`config`, live transport list, failure-count map, and an allocation counter
giving fresh identities to `new ConsoleTransport()`. -/
structure LoggerState where
  config : Config
  transports : List Transport
  transportFailures : List (Transport × Nat)
  nextId : Nat
deriving DecidableEq, Repr

/-- `Map.get`. -/
def mapGet : List (Transport × Nat) → Transport → Option Nat
  | [], _ => none
  | (t', n) :: rest, t => if t' = t then some n else mapGet rest t

/-- `Map.set`. -/
def mapSet : List (Transport × Nat) → Transport → Nat → List (Transport × Nat)
  | [], t, n => [(t, n)]
  | (t', n') :: rest, t, n =>
    if t' = t then (t, n) :: rest else (t', n') :: mapSet rest t n

/-- `Map.delete`. -/
def mapDel : List (Transport × Nat) → Transport → List (Transport × Nat)
  | [], _ => []
  | (t', n') :: rest, t => if t' = t then rest else (t', n') :: mapDel rest t

/-- `indexOf` + `splice(index, 1)`: remove the first occurrence, no-op when
absent (`Logger.removeTransport`). -/
def removeFirst : List Transport → Transport → List Transport
  | [], _ => []
  | x :: xs, t => if x = t then xs else x :: removeFirst xs t

/-- The first failing shape check of `Logger.validateTransport`, if any:
not an object, no callable `log`, or (under `requireClose`) no callable
`close`. -/
def transportInvalidMsg (cfg : Config) (t : Transport) : Option String :=
  if !t.isObject then some "Transport must be an object"
  else if !t.hasLog then some "Transport must implement log() method"
  else if cfgRequireClose cfg && !t.hasClose then
    some "Transport must implement close() method"
  else none

/-- `Logger.validateTransport`: `.ok (true, [])` for a valid candidate,
`.error` under `throwOnInvalid`, otherwise `.ok (false, [warn])` — one
`console.warn` and the candidate reported invalid. -/
def validateTransportE (cfg : Config) (t : Transport) :
    Except TVError (Bool × List Event) :=
  match transportInvalidMsg cfg t with
  | none => .ok (true, [])
  | some m =>
    if cfgThrowOnInvalid cfg then .error ⟨m⟩ else .ok (false, [Event.warn])

/-- `Logger.addTransport`: validate, then push when valid. -/
def addTransportE (s : LoggerState) (t : Transport) :
    Except TVError (LoggerState × List Event) :=
  match validateTransportE s.config t with
  | .error e => .error e
  | .ok (true, evs) => .ok ({ s with transports := s.transports ++ [t] }, evs)
  | .ok (false, evs) => .ok (s, evs)

/-- `Logger.removeTransport`. -/
def removeTransportPub (s : LoggerState) (t : Transport) : LoggerState :=
  { s with transports := removeFirst s.transports t }

/-- `Logger.clearTransports`. -/
def clearTransportsPub (s : LoggerState) : LoggerState :=
  { s with transports := [] }

/-- `Logger.getTransports` (returns a copy; values coincide here). -/
def getTransports (s : LoggerState) : List Transport :=
  s.transports

/-- `Logger.getTransportStatus`. -/
def getTransportStatus (s : LoggerState) : List (Transport × Nat) :=
  s.transports.map (fun t => (t, (mapGet s.transportFailures t).getD 0))

/-- `config.transports.forEach(t => this.validateTransport(t))` under
`throwOnInvalid`: stop at the first invalid candidate. -/
def validateAllThrow (cfg : Config) : List Transport → Except TVError Unit
  | [] => .ok ()
  | t :: rest =>
    match transportInvalidMsg cfg t with
    | some m => .error ⟨m⟩
    | none => validateAllThrow cfg rest

/-- A numeric identity unused by any configured transport, for fresh
`ConsoleTransport` allocation. -/
def freshId (ts : List Transport) : Nat :=
  ts.foldr (fun t m => max (t.id + 1) m) 0

/-- The initial transport list of the constructor: under `throwOnInvalid`
validate all then take the whole list, otherwise filter out invalid
candidates with one warning each. -/
def initTransports (cfg : Config) : Except TVError (List Transport × List Event) :=
  match cfg.transports with
  | none => .ok ([], [])
  | some ts =>
    if cfgThrowOnInvalid cfg then
      match validateAllThrow cfg ts with
      | .error e => .error e
      | .ok _ => .ok (ts, [])
    else
      .ok (ts.filter (fun t => (transportInvalidMsg cfg t).isNone),
           (ts.filter (fun t => (transportInvalidMsg cfg t).isSome)).map
             (fun _ => Event.warn))

/-- `new Logger(config)`: attach the configured transports, then fall back to
a fresh console transport when none survived (this constructor fallback is
assigned directly, without validation). -/
def mkLogger (cfg : Config) : Except TVError (LoggerState × List Event) :=
  match initTransports cfg with
  | .error e => .error e
  | .ok (base, evs) =>
    if base.isEmpty then
      .ok ({ config := cfg,
             transports := [mkConsole (freshId (cfg.transports.getD []))],
             transportFailures := [],
             nextId := freshId (cfg.transports.getD []) + 1 }, evs)
    else
      .ok ({ config := cfg,
             transports := base,
             transportFailures := [],
             nextId := freshId (cfg.transports.getD []) }, evs)

/-- `Logger.shouldLog`:
`LOG_LEVELS[messageLevel] >= LOG_LEVELS[this.config.level ?? 'info']`. -/
def shouldLog (cfg : Config) (messageLevel : LogLevel) : Bool :=
  decide (LOG_LEVELS messageLevel ≥ LOG_LEVELS (cfg.level.getD LogLevel.info))

/-- `Logger.createLogEntry`: symbol from the registry, instant captured once,
metadata `{...this.config.metadata, ...extraMetadata}`. -/
def createLogEntry (cfg : Config) (level : LogLevel) (message : String)
    (extraMetadata : Metadata) (now : Nat) : LogEntry :=
  { level := level,
    symbol := LOG_SYMBOLS level,
    message := message,
    timestamp := now,
    metadata := mergeMeta cfg.metadata extraMetadata,
    formattedMessage := none }

/-- The default message formatter of `initializeFormatters` under the default
`datetime` preset: rendered timestamp, a space, the symbol, a space, the
message.  Concrete date rendering is external; the instant is shown via
`Nat.repr`. -/
def formatMessage (entry : LogEntry) : String :=
  Nat.repr entry.timestamp ++ " " ++ entry.symbol ++ " " ++ entry.message

/-- The JS truthiness guard
`this.config.failureThreshold && currentFailures >= this.config.failureThreshold`
(an absent or zero threshold never evicts). -/
def thresholdReached (cfg : Config) (n : Nat) : Bool :=
  match cfg.failureThreshold with
  | none => false
  | some th => decide (th ≠ 0 ∧ th ≤ n)

/-- `Logger.handleTransportError`: report to the callback first (with the
transport list as it stands, pre-removal), bump the failure count, then —
when the configured threshold is reached — remove the transport, drop its
tracker entry, and attach a fresh console transport if the list became
empty.  That fallback goes through `addTransport`, hence through validation;
when validation rejects or throws, the push is skipped (the throw happens
inside an un-awaited `async` method and never reaches the logging caller). -/
def handleTransportError (s : LoggerState) (t : Transport) (e : Err)
    (entry : LogEntry) : LoggerState × List Event :=
  let cbEvs :=
    if s.config.hasOnTransportError then
      [Event.callback t e s.transports entry]
    else []
  let cur := (mapGet s.transportFailures t).getD 0 + 1
  let s1 := { s with transportFailures := mapSet s.transportFailures t cur }
  if thresholdReached s.config cur then
    let s2 := { s1 with transports := removeFirst s1.transports t,
                        transportFailures := mapDel s1.transportFailures t }
    if s2.transports.isEmpty then
      let c := mkConsole s2.nextId
      match validateTransportE s2.config c with
      | .ok (true, evs) =>
        ({ s2 with transports := s2.transports ++ [c], nextId := s2.nextId + 1 },
         cbEvs ++ [Event.evict t] ++ evs ++ [Event.fallback c])
      | .ok (false, evs) =>
        ({ s2 with nextId := s2.nextId + 1 }, cbEvs ++ [Event.evict t] ++ evs)
      | .error _ =>
        ({ s2 with nextId := s2.nextId + 1 }, cbEvs ++ [Event.evict t])
    else
      (s2, cbEvs ++ [Event.evict t])
  else
    (s1, cbEvs)

/-- The raw `transport.log(entry)` call: the outcome oracle says whether this
transport's `log` returns or throws on this dispatch. -/
def transportLogRaw (oracle : Transport → Option Err) (t : Transport) :
    Except Err Unit :=
  match oracle t with
  | none => .ok ()
  | some e => .error e

/-- `try { ... } catch (error) { ... }` over the throwing computation. -/
def tryCatchE (m : Except Err (LoggerState × List Event))
    (h : Err → LoggerState × List Event) : Except Err (LoggerState × List Event) :=
  match m with
  | .ok r => .ok r
  | .error e => .ok (h e)

/-- `Logger.tryTransportLog`: attempt `transport.log(entry)`; on success
delete the failure count, on a thrown error delegate to
`handleTransportError`.  The catch is total, so the result is always `.ok`. -/
def tryTransportLogE (oracle : Transport → Option Err) (s : LoggerState)
    (t : Transport) (entry : LogEntry) : Except Err (LoggerState × List Event) :=
  tryCatchE
    ((transportLogRaw oracle t).map
      (fun _ => ({ s with transportFailures := mapDel s.transportFailures t },
                 [Event.attempt t])))
    (fun e =>
      let p := handleTransportError s t e entry
      (p.1, Event.attempt t :: p.2))

/-- `this.transports.forEach(...)` with ECMA semantics: `fuel` is the length
captured when iteration starts, `k` the running index; each index is re-read
from the live list and skipped when it no longer exists.  Any error a body
failed to catch would propagate through the `Except` bind. -/
def forEachDispatchE (oracle : Transport → Option Err) (entry : LogEntry) :
    Nat → Nat → LoggerState → Except Err (LoggerState × List Event)
  | 0, _, s => .ok (s, [])
  | fuel + 1, k, s =>
    match s.transports[k]? with
    | none => forEachDispatchE oracle entry fuel (k + 1) s
    | some t => do
      let p ← tryTransportLogE oracle s t entry
      let q ← forEachDispatchE oracle entry fuel (k + 1) p.1
      .ok (q.1, p.2 ++ q.2)

/-- The formatted entry sent to every transport of one dispatch: the built
entry with the shared, pre-rendered `formattedMessage` attached. -/
def dispatchEntry (cfg : Config) (level : LogLevel) (message : String)
    (extraMetadata : Metadata) (now : Nat) : LogEntry :=
  let entry0 := createLogEntry cfg level message extraMetadata now
  { entry0 with formattedMessage := some (formatMessage entry0) }

/-- `Logger.log`: level filter, entry construction, one shared
`formattedMessage`, then fan-out over the live transport list. -/
def logCallE (oracle : Transport → Option Err) (s : LoggerState)
    (level : LogLevel) (message : String) (extraMetadata : Metadata)
    (now : Nat) : Except Err (LoggerState × List Event) :=
  if shouldLog s.config level then
    forEachDispatchE oracle (dispatchEntry s.config level message extraMetadata now)
      s.transports.length 0 s
  else
    .ok (s, [])

/-- `Logger.debug`. -/
def debugCall (oracle : Transport → Option Err) (s : LoggerState)
    (message : String) (extraMetadata : Metadata) (now : Nat) :
    Except Err (LoggerState × List Event) :=
  logCallE oracle s LogLevel.debug message extraMetadata now

/-- `Logger.info`. -/
def infoCall (oracle : Transport → Option Err) (s : LoggerState)
    (message : String) (extraMetadata : Metadata) (now : Nat) :
    Except Err (LoggerState × List Event) :=
  logCallE oracle s LogLevel.info message extraMetadata now

/-- `Logger.warning`. -/
def warningCall (oracle : Transport → Option Err) (s : LoggerState)
    (message : String) (extraMetadata : Metadata) (now : Nat) :
    Except Err (LoggerState × List Event) :=
  logCallE oracle s LogLevel.warning message extraMetadata now

/-- `Logger.success`. -/
def successCall (oracle : Transport → Option Err) (s : LoggerState)
    (message : String) (extraMetadata : Metadata) (now : Nat) :
    Except Err (LoggerState × List Event) :=
  logCallE oracle s LogLevel.success message extraMetadata now

/-- Iterate `n` logging calls with a fixed oracle, accumulating events.  The
error branch is unreachable (dispatch never throws) and keeps the helper
total. -/
def runLogs (oracle : Transport → Option Err) (level : LogLevel)
    (message : String) (extraMetadata : Metadata) (now : Nat) :
    Nat → LoggerState × List Event → LoggerState × List Event
  | 0, p => p
  | n + 1, p =>
    match logCallE oracle p.1 level message extraMetadata now with
    | .ok q => runLogs oracle level message extraMetadata now n (q.1, p.2 ++ q.2)
    | .error _ => runLogs oracle level message extraMetadata now n p

/-- A `Partial<LoggerConfig>` argument to `Logger.child`: `some` marks a key
present in the partial object. -/
structure PartialConfig where
  level : Option LogLevel := none
  metadata : Option Metadata := none
  onTransportError : Option Bool := none
  failureThreshold : Option Nat := none
  validation : Option VPolicy := none
  transports : Option (List Transport) := none
deriving DecidableEq, Repr

/-- The configuration object built by `Logger.child`:
`{...this.config, ...childConfig, metadata: {...this.config.metadata,
...childConfig.metadata}}` — whole-field override for every key present in
the partial, except `metadata`, which is shallow-merged. -/
def mergeConfig (base : Config) (p : PartialConfig) : Config :=
  { level := p.level <|> base.level,
    metadata := mergeMeta base.metadata (p.metadata.getD []),
    hasOnTransportError := p.onTransportError.getD base.hasOnTransportError,
    failureThreshold := p.failureThreshold <|> base.failureThreshold,
    validation := p.validation <|> base.validation,
    transports := p.transports <|> base.transports }

/-- `Logger.child`: construct a fresh logger from the merged configuration.
Only `this.config` is read — never the live transport list or the failure
tracker. -/
def childE (s : LoggerState) (p : PartialConfig) :
    Except TVError (LoggerState × List Event) :=
  mkLogger (mergeConfig s.config p)

/-- `Logger.withMetadata`: sugar for `child({ metadata })`. -/
def withMetadataE (s : LoggerState) (m : Metadata) :
    Except TVError (LoggerState × List Event) :=
  childE s { metadata := some m }

/-- Count of `onTransportError` callback invocations in an event list. -/
def isCallbackEv : Event → Bool
  | .callback _ _ _ _ => true
  | _ => false

/-- Count of transport `log` attempts for a given transport. -/
def isAttemptOf (t : Transport) : Event → Bool
  | .attempt t' => t' = t
  | _ => false

end Saga

namespace Saga.HeapModel

/-!
A reference-semantics model for `Logger.getConfig`, which the source
implements as `Object.freeze({ ...this.config })`.  Both the spread and the
freeze are shallow in JS: the new top-level object gets fresh frozen
own-properties, but a nested object such as `config.metadata` is shared by
reference and stays mutable.  Top-level config objects live at numeric
references in a small heap; metadata objects live at their own references
and — being reachable only through a config's `metaRef` — are never frozen
by `getConfig`.
-/

/-- A top-level configuration object: its own scalar fields plus a reference
to its nested metadata object. -/
structure HConfig where
  level : Option LogLevel
  metaRef : Nat
deriving DecidableEq, Repr

/-- The object heap: config objects, metadata objects, the shallow frozen
flag of each config object, and the next fresh reference. -/
structure HHeap where
  configs : Nat → HConfig
  metas : Nat → Saga.Metadata
  frozen : Nat → Bool
  next : Nat

/-- `Object.freeze({ ...this.config })`: allocate a fresh top-level object
copying the fields of the logger's config (the `metaRef` is copied, i.e. the
metadata object is shared), mark the fresh object frozen, and return its
reference. -/
def getConfigH (h : HHeap) (cfgRef : Nat) : HHeap × Nat :=
  ({ h with
      configs := fun x => if x = h.next then h.configs cfgRef else h.configs x,
      frozen := fun x => if x = h.next then true else h.frozen x,
      next := h.next + 1 },
   h.next)

/-- Assignment to a top-level field of a config object: silently ignored
when the object is frozen (JS non-strict assignment to a frozen object). -/
def writeLevel (h : HHeap) (r : Nat) (l : LogLevel) : HHeap :=
  if h.frozen r then h
  else
    { h with
        configs := fun x =>
          if x = r then { h.configs r with level := some l } else h.configs x }

/-- Assignment to a key of the metadata object reached through a config
object.  The metadata object is never frozen by the shallow
`Object.freeze`, so the write always lands. -/
def writeMetaKey (h : HHeap) (r : Nat) (k : String) (v : Saga.MVal) : HHeap :=
  { h with
      metas := fun x =>
        if x = (h.configs r).metaRef then
          Saga.mergeMeta (h.metas x) [(k, v)]
        else h.metas x }

/-- The metadata mapping the logger itself observes (spread into every log
entry by `createLogEntry`). -/
def loggerMeta (h : HHeap) (cfgRef : Nat) : Saga.Metadata :=
  h.metas ((h.configs cfgRef).metaRef)

/-- The minimum level the logger itself observes (`config.level ?? 'info'`). -/
def loggerLevel (h : HHeap) (cfgRef : Nat) : LogLevel :=
  (h.configs cfgRef).level.getD LogLevel.info

end Saga.HeapModel

namespace Saga

/-- Right-biased choice on optional values (the value a JS property read
yields after a spread: the overriding record's value when present). -/
def optOr (x y : Option MVal) : Option MVal :=
  match x with
  | some v => some v
  | none => y

lemma metaLookup_append (xs ys : Metadata) (k : String) :
    metaLookup (xs ++ ys) k = optOr (metaLookup xs k) (metaLookup ys k) := by
  induction xs with
  | nil => simp [metaLookup, optOr]
  | cons kv rest ih =>
    obtain ⟨k', v⟩ := kv
    by_cases h : k' = k <;> simp [metaLookup, h, optOr, ih]

lemma metaLookup_overrideAll (a b : Metadata) (k : String) :
    metaLookup (overrideAll a b) k
      = (metaLookup a k).map (fun v => (metaLookup b k).getD v) := by
  induction a with
  | nil => simp [overrideAll, metaLookup]
  | cons kv rest ih =>
    obtain ⟨k', v⟩ := kv
    by_cases h : k' = k
    · subst h; simp [overrideAll, metaLookup]
    · simp [overrideAll, metaLookup, h, ih]

lemma metaLookup_filter_isNone (a b : Metadata) (k : String)
    (ha : metaLookup a k = none) :
    metaLookup (b.filter (fun kv => (metaLookup a kv.1).isNone)) k
      = metaLookup b k := by
  induction b with
  | nil => simp
  | cons kv rest ih =>
    obtain ⟨k', v⟩ := kv
    by_cases h : k' = k
    · subst h
      simp [List.filter, ha, metaLookup]
    · by_cases hkeep : (metaLookup a k').isNone
      · simp [List.filter, hkeep, metaLookup, h, ih]
      · simp [List.filter, hkeep, metaLookup, h, ih]

/-- Property reads after the spread `{...a, ...b}`: the overriding record
wins on collisions, every key of either record is present. -/
lemma metaLookup_mergeMeta (a b : Metadata) (k : String) :
    metaLookup (mergeMeta a b) k = optOr (metaLookup b k) (metaLookup a k) := by
  unfold mergeMeta
  rw [metaLookup_append, metaLookup_overrideAll]
  cases ha : metaLookup a k with
  | none =>
    rw [metaLookup_filter_isNone a b k ha]
    cases hb : metaLookup b k <;> simp [optOr]
  | some v =>
    cases hb : metaLookup b k <;> simp [optOr, hb]

/-- The constructor stores the configuration it was given verbatim. -/
lemma mkLogger_config {cfg : Config} {st : LoggerState} {evs : List Event}
    (h : mkLogger cfg = .ok (st, evs)) : st.config = cfg := by
  unfold mkLogger at h
  cases hi : initTransports cfg with
  | error e => rw [hi] at h; cases h
  | ok p =>
    rw [hi] at h
    by_cases hb : p.1.isEmpty <;> simp [hb] at h <;> rw [← h.1]

/-- `tryTransportLog` always returns (the catch is total), and the attempt
on `t` heads its event list. -/
lemma tryTransportLogE_shape (oracle : Transport → Option Err)
    (s : LoggerState) (t : Transport) (entry : LogEntry) :
    ∃ s1 tail, tryTransportLogE oracle s t entry = .ok (s1, Event.attempt t :: tail) := by
  cases h : oracle t with
  | none =>
    exact ⟨{ s with transportFailures := mapDel s.transportFailures t }, [],
      by simp [tryTransportLogE, transportLogRaw, h, tryCatchE, Except.map]⟩
  | some e =>
    exact ⟨(handleTransportError s t e entry).1, (handleTransportError s t e entry).2,
      by simp [tryTransportLogE, transportLogRaw, h, tryCatchE, Except.map]⟩

/-- The fan-out loop never propagates an error to its caller. -/
lemma forEachDispatchE_ok (oracle : Transport → Option Err) (entry : LogEntry) :
    ∀ (fuel k : Nat) (s : LoggerState),
      ∃ p, forEachDispatchE oracle entry fuel k s = .ok p := by
  intro fuel
  induction fuel with
  | zero => intro k s; exact ⟨(s, []), rfl⟩
  | succ n ih =>
    intro k s
    cases hg : s.transports[k]? with
    | none => simpa [forEachDispatchE, hg] using ih (k + 1) s
    | some t =>
      obtain ⟨s1, tail, h1⟩ := tryTransportLogE_shape oracle s t entry
      obtain ⟨p2, h2⟩ := ih (k + 1) s1
      refine ⟨(p2.1, (Event.attempt t :: tail) ++ p2.2), ?_⟩
      simp [forEachDispatchE, hg, h1, h2, Bind.bind, Except.bind]

/-- A logging call never returns an error to its caller. -/
lemma logCallE_ok (oracle : Transport → Option Err) (s : LoggerState)
    (lvl : LogLevel) (msg : String) (extra : Metadata) (now : Nat) :
    ∃ p, logCallE oracle s lvl msg extra now = .ok p := by
  by_cases h : shouldLog s.config lvl
  · simpa [logCallE, h] using
      forEachDispatchE_ok oracle _ s.transports.length 0 s
  · exact ⟨(s, []), by simp [logCallE, h]⟩

/-- C6: for every logger state, call level, message, metadata and every
assignment of transport `log` outcomes (including throwing ones), each of
the four public logging methods returns normally: a transport runtime
failure is never propagated out of the logging method. -/
theorem saga_log_never_throws (oracle : Transport → Option Err)
    (s : LoggerState) (msg : String) (extra : Metadata) (now : Nat) :
    (∃ p, debugCall oracle s msg extra now = .ok p)
    ∧ (∃ p, infoCall oracle s msg extra now = .ok p)
    ∧ (∃ p, warningCall oracle s msg extra now = .ok p)
    ∧ (∃ p, successCall oracle s msg extra now = .ok p) :=
  ⟨logCallE_ok oracle s .debug msg extra now,
   logCallE_ok oracle s .info msg extra now,
   logCallE_ok oracle s .warning msg extra now,
   logCallE_ok oracle s .success msg extra now⟩

/-- C2: a call strictly below the configured minimum level (default `info`)
returns immediately — unchanged state, no entry, no transport invocation, no
events; a call at or above the minimum dispatches to the transports (the
head of the transport list is attempted). -/
theorem saga_level_filtering (oracle : Transport → Option Err)
    (s : LoggerState) (lvl : LogLevel) (msg : String) (extra : Metadata)
    (now : Nat) :
    (LOG_LEVELS lvl < LOG_LEVELS (s.config.level.getD LogLevel.info) →
       logCallE oracle s lvl msg extra now = .ok (s, []))
    ∧ (LOG_LEVELS (s.config.level.getD LogLevel.info) ≤ LOG_LEVELS lvl →
       ∀ t0, s.transports.head? = some t0 →
         ∃ s' evs, logCallE oracle s lvl msg extra now = .ok (s', evs)
           ∧ Event.attempt t0 ∈ evs) := by
  constructor
  · intro hlt
    have hs : shouldLog s.config lvl = false := by
      simp [shouldLog]; omega
    simp [logCallE, hs]
  · intro hge t0 ht0
    have hs : shouldLog s.config lvl = true := by
      simp [shouldLog]; omega
    cases hl : s.transports with
    | nil => rw [hl] at ht0; cases ht0
    | cons t rest =>
      have ht : t0 = t := by rw [hl] at ht0; cases ht0; rfl
      subst ht
      obtain ⟨s1, tail, h1⟩ := tryTransportLogE_shape oracle s t0
        (dispatchEntry s.config lvl msg extra now)
      obtain ⟨p2, h2⟩ := forEachDispatchE_ok oracle
        (dispatchEntry s.config lvl msg extra now) rest.length 1 s1
      refine ⟨p2.1, (Event.attempt t0 :: tail) ++ p2.2, ?_, by simp⟩
      have hg : s.transports[0]? = some t0 := by rw [hl]; simp
      have hlen : s.transports.length = rest.length + 1 := by rw [hl]; rfl
      simp [logCallE, hs, hlen, forEachDispatchE, hg, h1, h2,
        Bind.bind, Except.bind]

/-- C2 witness: a logger at the default minimum level drops a `debug` call
unchanged and dispatches an `info` call to its sole transport. -/
theorem saga_level_filtering_w :
    ∃ s' evs,
      logCallE (fun _ => none) ⟨{}, [mkConsole 0], [], 1⟩ LogLevel.info "m" [] 0
        = .ok (s', evs) ∧ Event.attempt (mkConsole 0) ∈ evs :=
  (saga_level_filtering (fun _ => none) ⟨{}, [mkConsole 0], [], 1⟩
    LogLevel.info "m" [] 0).2 (by decide) (mkConsole 0) rfl

deriving instance DecidableEq for Except

/-- C1 scenario: a transport whose `log` always throws. -/
def c1bad : Transport := { id := 0 }

/-- C1 scenario: error callback, `failureThreshold = 3`, single failing
transport. -/
def c1cfg : Config :=
  { hasOnTransportError := true, failureThreshold := some 3,
    transports := some [c1bad] }

/-- C1 scenario: `c1bad.log` throws on every call; any other transport
(the console fallback) succeeds. -/
def c1oracle : Transport → Option Err :=
  fun t => if t.id = 0 then some "boom" else none

/-- C1 scenario: the state produced by `new Logger(c1cfg)`. -/
def c1s0 : LoggerState := ⟨c1cfg, [c1bad], [], 1⟩

/-- C1 scenario: four `info` calls against the always-failing transport. -/
def c1run : LoggerState × List Event :=
  runLogs c1oracle .info "m" [] 0 4 (c1s0, [])

/-- C1: with `failureThreshold = 3`, an error callback, and a single
always-throwing transport, four `info` calls produce exactly three error
callback invocations; the failing transport is gone from the transport list
and a console fallback transport is present (the list is nonempty). -/
theorem saga_failure_threshold_eviction :
    mkLogger c1cfg = .ok (c1s0, [])
    ∧ (c1run.2.filter isCallbackEv).length = 3
    ∧ c1bad ∉ c1run.1.transports
    ∧ c1run.1.transports.any Transport.isConsole = true
    ∧ c1run.1.transports ≠ [] := by
  decide

/-- C3 scenario: the tracked transport. -/
def c3x : Transport := { id := 0 }

/-- C3 scenario: `failureThreshold = 3`, single transport. -/
def c3cfg : Config := { failureThreshold := some 3, transports := some [c3x] }

/-- C3 scenario: the constructed logger state. -/
def c3s0 : LoggerState := ⟨c3cfg, [c3x], [], 1⟩

/-- C3 scenario: `c3x.log` throws. -/
def c3oracleFail : Transport → Option Err :=
  fun t => if t.id = 0 then some "e" else none

/-- C3 scenario: every `log` succeeds. -/
def c3oracleOk : Transport → Option Err := fun _ => none

/-- C3 scenario: fail, fail, then one success. -/
def c3afterSuccess : LoggerState × List Event :=
  runLogs c3oracleOk .info "m" [] 0 1
    (runLogs c3oracleFail .info "m" [] 0 2 (c3s0, []))

/-- C3 scenario: one further failure after the success. -/
def c3final : LoggerState × List Event :=
  runLogs c3oracleFail .info "m" [] 0 1 c3afterSuccess

/-- C3 scenario: a concrete entry for the generic-reset witness. -/
def c3entry : LogEntry :=
  ⟨.info, "◆", "m", 0, [], none⟩

/-- C3: a successful `log` call to a transport deletes its tracked failure
count entirely (full reset to 0, not a decrement) — generically, for every
state; hence a fail-fail-succeed-fail transport under `failureThreshold = 3`
tracks count 0 right after the success, count 1 (not 3) after the further
failure, and stays in the transport list. -/
theorem saga_failure_reset :
    (∀ (oracle : Transport → Option Err) (s : LoggerState) (t : Transport)
       (entry : LogEntry), oracle t = none →
       tryTransportLogE oracle s t entry
         = .ok ({ s with transportFailures := mapDel s.transportFailures t },
                [Event.attempt t]))
    ∧ mapGet c3afterSuccess.1.transportFailures c3x = none
    ∧ mapGet c3final.1.transportFailures c3x = some 1
    ∧ getTransportStatus c3final.1 = [(c3x, 1)]
    ∧ c3x ∈ c3final.1.transports := by
  refine ⟨?_, by decide, by decide, by decide, by decide⟩
  intro oracle s t entry h
  simp [tryTransportLogE, transportLogRaw, h, tryCatchE, Except.map]

/-- C3 witness: the generic full-reset clause at a concrete successful call. -/
theorem saga_failure_reset_w :
    tryTransportLogE c3oracleOk c3s0 c3x c3entry
      = .ok ({ c3s0 with transportFailures := mapDel c3s0.transportFailures c3x },
             [Event.attempt c3x]) :=
  saga_failure_reset.1 c3oracleOk c3s0 c3x c3entry rfl

/-- C4 scenario: the failing first transport. -/
def c4A : Transport := { id := 0 }

/-- C4 scenario: the healthy second transport. -/
def c4B : Transport := { id := 1 }

/-- C4 scenario: two transports, `failureThreshold = 1`. -/
def c4cfg : Config :=
  { failureThreshold := some 1, transports := some [c4A, c4B] }

/-- C4 scenario: the constructed logger state. -/
def c4s0 : LoggerState := ⟨c4cfg, [c4A, c4B], [], 2⟩

/-- C4 scenario: only `c4A.log` throws. -/
def c4oracle : Transport → Option Err :=
  fun t => if t.id = 0 then some "boom" else none

/-- C4 (bug exhibit): with transports `[c4A, c4B]` and `failureThreshold = 1`,
one dispatched `info` call makes `c4A` fail and be evicted mid-iteration;
the `forEach` index then skips past `c4B`, so `c4B` — present in the
transport list when dispatch started, and still an active transport
afterwards — never has its `log` attempted in that dispatch, contradicting
"every transport in the list at the start of dispatch is attempted exactly
once". -/
theorem saga_eviction_skips_next_transport :
    logCallE c4oracle c4s0 .info "m" [] 0
      = .ok ({ c4s0 with transports := [c4B], transportFailures := [] },
             [Event.attempt c4A, Event.evict c4A])
    ∧ c4B ∈ c4s0.transports
    ∧ (([Event.attempt c4A, Event.evict c4A].filter (isAttemptOf c4B)).length = 0) := by
  decide

/-- C5: a child's effective metadata is the shallow key-union of the
parent's and the child partial's metadata with the child winning on
collisions (stated via property lookup), and across a grandparent → parent →
child chain the stored metadata is exactly
`merge(merge(grandparent, parent), child)`. -/
theorem saga_child_metadata_merge (s : LoggerState) (p1 p2 : PartialConfig)
    (c1 c2 : LoggerState) (evs1 evs2 : List Event)
    (h1 : childE s p1 = .ok (c1, evs1)) (h2 : childE c1 p2 = .ok (c2, evs2)) :
    (∀ k, metaLookup c1.config.metadata k
       = optOr (metaLookup (p1.metadata.getD []) k)
           (metaLookup s.config.metadata k))
    ∧ c2.config.metadata
       = mergeMeta (mergeMeta s.config.metadata (p1.metadata.getD []))
           (p2.metadata.getD []) := by
  have hc1 : c1.config = mergeConfig s.config p1 := mkLogger_config h1
  have hc2 : c2.config = mergeConfig c1.config p2 := mkLogger_config h2
  constructor
  · intro k
    rw [hc1]
    exact metaLookup_mergeMeta s.config.metadata (p1.metadata.getD []) k
  · rw [hc2, hc1]; rfl

/-- C5 scenario: parent metadata `{service: main}`. -/
def c5s0 : LoggerState :=
  ⟨{ metadata := [("service", "main")] }, [mkConsole 0], [], 1⟩

/-- C5 scenario: child partial `{component: auth}`. -/
def c5p1 : PartialConfig := { metadata := some [("component", "auth")] }

/-- C5 scenario: grandchild partial `{request, r1}`. -/
def c5p2 : PartialConfig := { metadata := some [("request", "r1")] }

/-- C5 scenario: the child logger state. -/
def c5c1 : LoggerState :=
  ⟨mergeConfig c5s0.config c5p1, [mkConsole 0], [], 1⟩

/-- C5 scenario: the grandchild logger state. -/
def c5c2 : LoggerState :=
  ⟨mergeConfig c5c1.config c5p2, [mkConsole 0], [], 1⟩

/-- C5 witness: the merge law at a concrete parent/child/grandchild chain. -/
theorem saga_child_metadata_merge_w :
    (∀ k, metaLookup c5c1.config.metadata k
       = optOr (metaLookup (c5p1.metadata.getD []) k)
           (metaLookup c5s0.config.metadata k))
    ∧ c5c2.config.metadata
       = mergeMeta (mergeMeta c5s0.config.metadata (c5p1.metadata.getD []))
           (c5p2.metadata.getD []) :=
  saga_child_metadata_merge c5s0 c5p1 c5p2 c5c1 c5c2 [] []
    (by decide) (by decide)

/-- C7: a candidate failing the shape check (not an object, no callable
`log`, or no callable `close` under `requireClose`): with
`throwOnInvalid = true`, both `addTransport` and construction raise
`TransportValidationError` and the candidate is not attached; with
`throwOnInvalid` false/unset there is no exception, exactly one diagnostic
warning, and the candidate is silently excluded (the constructor then falls
back to a console transport). -/
theorem saga_transport_validation_modes (cfg : Config) (t : Transport)
    (m : String) (s : LoggerState) (hs : s.config = cfg)
    (hm : transportInvalidMsg cfg t = some m) :
    (cfgThrowOnInvalid cfg = true →
       addTransportE s t = .error ⟨m⟩
       ∧ mkLogger { cfg with transports := some [t] } = .error ⟨m⟩)
    ∧ (cfgThrowOnInvalid cfg = false →
       addTransportE s t = .ok (s, [Event.warn])
       ∧ mkLogger { cfg with transports := some [t] }
           = .ok (⟨{ cfg with transports := some [t] },
                   [mkConsole (t.id + 1)], [], t.id + 2⟩, [Event.warn])) := by
  have hm' : transportInvalidMsg { cfg with transports := some [t] } t = some m := hm
  have hv : cfgThrowOnInvalid { cfg with transports := some [t] }
      = cfgThrowOnInvalid cfg := rfl
  constructor
  · intro hthrow
    constructor
    · simp [addTransportE, validateTransportE, hs, hm, hthrow]
    · simp [mkLogger, initTransports, hv, hthrow, validateAllThrow, hm']
  · intro hwarn
    constructor
    · simp [addTransportE, validateTransportE, hs, hm, hwarn]
    · simp [mkLogger, initTransports, hv, hwarn, hm', List.filter, freshId]

/-- C7 scenario: a non-object candidate. -/
def c7bad : Transport :=
  { id := 5, isConsole := false, isObject := false, hasLog := true, hasClose := false }

/-- C7 scenario: warn-mode configuration. -/
def c7cfg : Config := { validation := some { throwOnInvalid := false } }

/-- C7 scenario: a logger in warn mode. -/
def c7s : LoggerState := ⟨c7cfg, [mkConsole 0], [], 1⟩

/-- C7 witness: warn mode at a concrete invalid candidate — no exception,
one warning, candidate excluded, console fallback attached. -/
theorem saga_transport_validation_modes_w :
    addTransportE c7s c7bad = .ok (c7s, [Event.warn])
    ∧ mkLogger { c7cfg with transports := some [c7bad] }
        = .ok (⟨{ c7cfg with transports := some [c7bad] },
                [mkConsole (c7bad.id + 1)], [], c7bad.id + 2⟩, [Event.warn]) :=
  (saga_transport_validation_modes c7cfg c7bad "Transport must be an object"
    c7s rfl rfl).2 rfl

/-- C8: on a transport failure with an error callback configured, the very
first observable effect of `handleTransportError` is the callback
invocation, carrying the failing transport, the thrown error and the entry,
together with the transport list as it stood before any removal — a
snapshot that still contains the failing transport.  Any eviction appears
only later in the event sequence. -/
theorem saga_callback_before_removal (s : LoggerState) (t : Transport)
    (e : Err) (entry : LogEntry) (hcb : s.config.hasOnTransportError = true)
    (ht : t ∈ s.transports) :
    ∃ s' rest, handleTransportError s t e entry
        = (s', Event.callback t e s.transports entry :: rest)
      ∧ t ∈ s.transports := by
  obtain ⟨rest, hrest⟩ : ∃ rest, (handleTransportError s t e entry).2
      = Event.callback t e s.transports entry :: rest := by
    simp only [handleTransportError, hcb, if_true]
    repeat' split
    all_goals exact ⟨_, rfl⟩
  exact ⟨(handleTransportError s t e entry).1, rest, by rw [← hrest], ht⟩

/-- C8 witness: the callback-first shape at a concrete failing transport. -/
theorem saga_callback_before_removal_w :
    ∃ s' rest,
      handleTransportError c1s0 c1bad "boom" c3entry
        = (s', Event.callback c1bad "boom" c1s0.transports c3entry :: rest)
      ∧ c1bad ∈ c1s0.transports :=
  saga_callback_before_removal c1s0 c1bad "boom" c3entry rfl (by decide)

/-- C10 scenario: the configured transport. -/
def c10A : Transport := { id := 0 }

/-- C10 scenario: a transport added after construction. -/
def c10B : Transport := { id := 1 }

/-- C10 scenario: configuration whose transport list is `[c10A]`. -/
def c10cfg : Config := { transports := some [c10A] }

/-- C10 scenario: the constructed logger state. -/
def c10s0 : LoggerState := ⟨c10cfg, [c10A], [], 1⟩

/-- C10 scenario: the state after `addTransport(c10B)`. -/
def c10s1 : LoggerState := ⟨c10cfg, [c10A, c10B], [], 1⟩

/-- C10 scenario: an empty `child` partial. -/
def c10p : PartialConfig := {}

/-- C10 scenario: the child logger built from the parent configuration. -/
def c10child : LoggerState := ⟨c10cfg, [c10A], [], 1⟩

/-- C10: `child` derives the new logger from the parent's construction-time
configuration only — two loggers with the same `config` yield identical
children whatever their live transport lists; concretely, a transport added
via `addTransport` after construction is absent from a later child's list,
and a child built after `removeTransport` emptied the parent's live list
still gets the originally configured transports. -/
theorem saga_child_uses_config_transports :
    (∀ (s1 s2 : LoggerState) (p : PartialConfig),
       s1.config = s2.config → childE s1 p = childE s2 p)
    ∧ addTransportE c10s0 c10B = .ok (c10s1, [])
    ∧ childE c10s1 c10p = .ok (c10child, [])
    ∧ c10B ∉ c10child.transports
    ∧ childE (removeTransportPub c10s0 c10A) c10p = .ok (c10child, [])
    ∧ (removeTransportPub c10s0 c10A).transports = [] := by
  refine ⟨?_, by decide, by decide, by decide, by decide, by decide⟩
  intro s1 s2 p h
  unfold childE
  rw [h]

/-- C10 witness: config-only dependence at two concrete states sharing a
config but holding different live transport lists. -/
theorem saga_child_uses_config_transports_w :
    childE c10s1 c10p = childE c10s0 c10p :=
  saga_child_uses_config_transports.1 c10s1 c10s0 c10p rfl

end Saga

namespace Saga.HeapModel

/-- C9 scenario: one config object at reference 0 whose metadata object, at
reference 0 of the metadata store, is `{service: main}`. -/
def c9h0 : HHeap :=
  ⟨fun _ => ⟨none, 0⟩, fun _ => [("service", "main")], fun _ => false, 1⟩

/-- C9 counterexample: the claim that no mutation through the object
returned by `getConfig()` can ever change the logger's configuration is
false — writing a key of the nested metadata mapping reached through the
returned snapshot changes the metadata the logger itself observes, because
`Object.freeze({ ...config })` copies and freezes only the top level. -/
theorem saga_getConfig_deep_freeze_cex :
    loggerMeta
        (writeMetaKey (getConfigH c9h0 0).1 (getConfigH c9h0 0).2
          "service" "evil") 0
      ≠ loggerMeta c9h0 0
    ∧ loggerMeta c9h0 0 = [("service", "main")]
    ∧ loggerMeta
        (writeMetaKey (getConfigH c9h0 0).1 (getConfigH c9h0 0).2
          "service" "evil") 0 = [("service", "evil")] := by
  decide

/-- C9 (amended): `getConfig()` is a shallow defensive copy with a shallow
freeze — reassigning a top-level field of the returned snapshot never
changes what the logger observes, while writing a key of the nested
metadata mapping reached through the snapshot lands in the logger's own
metadata. -/
theorem saga_getConfig_shallow (h : HHeap) (r : Nat) (l : LogLevel)
    (k : String) (v : Saga.MVal) (hr : r ≠ h.next) :
    loggerLevel (writeLevel (getConfigH h r).1 (getConfigH h r).2 l) r
        = loggerLevel h r
    ∧ loggerMeta (writeMetaKey (getConfigH h r).1 (getConfigH h r).2 k v) r
        = Saga.mergeMeta (loggerMeta h r) [(k, v)] := by
  constructor
  · simp [getConfigH, writeLevel, loggerLevel, hr]
  · simp [getConfigH, writeMetaKey, loggerMeta, hr]

/-- C9 amended-claim witness: the shallow-copy law at the concrete heap. -/
theorem saga_getConfig_shallow_w :
    loggerLevel
        (writeLevel (getConfigH c9h0 0).1 (getConfigH c9h0 0).2 LogLevel.debug) 0
      = loggerLevel c9h0 0
    ∧ loggerMeta
        (writeMetaKey (getConfigH c9h0 0).1 (getConfigH c9h0 0).2
          "service" "evil") 0
      = Saga.mergeMeta (loggerMeta c9h0 0) [("service", "evil")] :=
  saga_getConfig_shallow c9h0 0 LogLevel.debug "service" "evil" (by decide)

end Saga.HeapModel
